import Mathlib

/-!
# EMEXA quiz platform — verification of the quiz status resolver and the
# notification dispatcher / deduplicator

Shallow embedding of the scheduling/notification logic of the EMEXA
backend (`backend/src/controllers/teacherController.js`,
`backend/src/models/teacherQuiz.js`) and of the duplicated client-side
date math (`frontend/src/pages/TeacherQuizDraft.jsx`).

Modelling conventions:
* A JavaScript `Date` is identified with its absolute timestamp in
  milliseconds (`Int`).  The code only ever uses a stored date through
  `new Date(d)` followed by `setHours(...)`, i.e. only its local calendar
  day matters, so stored `scheduleDate` / `dueDate` values are modelled as
  the local day index (`Int`), and an instant is
  `day * 86400000 + millisecond-of-day`.  `setHours(h, m, s, ms)` composes
  the day with a time of day, `setDate(getDate () + 1)` adds one day;
  with this encoding both agree with JavaScript semantics (JS `setHours`
  with overflowing fields rolls the day over exactly as the non-normalised
  sum does).
* `"HH:MM"` time strings are used by the code only through
  `split(':').map(Number)`, so they are modelled post-parse as a pair of
  naturals (`TimeOfDay`).
* Database collections are explicit lists; request handlers become pure
  functions from (environment, store) to (response, new store, effects).
  Record fields that no modelled code path reads (long description
  strings, Cloudinary data, ...) are omitted.
-/

/-- Milliseconds in one day. -/
def msPerDay : Int := 86400000

/-- A parsed `"HH:MM"` time string: the result of `split(':').map(Number)`. -/
structure TimeOfDay where
  h : Nat
  m : Nat
deriving DecidableEq, Repr

/-- Millisecond offset of a `TimeOfDay` inside its day, as produced by
`setHours(h, m, 0, 0)`. -/
def TimeOfDay.ms (t : TimeOfDay) : Int := t.h * 3600000 + t.m * 60000

/-- A well-formed wall-clock time as parsed from an `"HH:MM"` string. -/
def TimeOfDay.valid (t : TimeOfDay) : Prop := t.h ≤ 23 ∧ t.m ≤ 59

instance (t : TimeOfDay) : Decidable t.valid := by
  unfold TimeOfDay.valid; infer_instance

/-- Absolute timestamp (ms) of local day `day` at millisecond-of-day `ms`:
`new Date(day)` followed by `setHours`. -/
def instant (day : Int) (ms : Int) : Int := day * msPerDay + ms

/-- `setHours(23, 59, 59, 999)` — the end-of-day offset used for `dueDate`. -/
def endOfDayMs : Int := 23 * 3600000 + 59 * 60000 + 59 * 1000 + 999

/-- The midnight-crossing test used by `teacherQuiz.js`
(`isCurrentlyActive`, `getTimeStatus`, `calculateExpiryDate`), by
`getTeacherQuizzes` / `getQuizStats` / `getSharedQuizzes` in
`teacherController.js` and by the `TeacherQuizDraft.jsx` filter:
`endHour < startHour || (endHour === startHour && endMinute <= startMinute)`. -/
def crossesMidnightLe (st et : TimeOfDay) : Bool :=
  decide (et.h < st.h ∨ (et.h = st.h ∧ et.m ≤ st.m))

/-- The variant midnight-crossing test used by `getTeacherActivities`
(`teacherController.js` line 928):
`endHour < startHour || (endHour === startHour && endMinute < startMinute)` —
strict on the minutes. -/
def crossesMidnightLt (st et : TimeOfDay) : Bool :=
  decide (et.h < st.h ∨ (et.h = st.h ∧ et.m < st.m))

/-- Scheduling fields of a scheduled quiz, with `scheduleDate`, `startTime`
and `endTime` present (the guard `quiz.isScheduled && quiz.scheduleDate &&
quiz.startTime && quiz.endTime` of the backend resolvers).  `dueDay` is the
optional `dueDate`. -/
structure ScheduledQuiz where
  scheduleDay : Int
  startTime : TimeOfDay
  endTime : TimeOfDay
  dueDay : Option Int
deriving DecidableEq, Repr

/-- `startDateTime`: `new Date(scheduleDate)` then
`setHours(startHour, startMinute, 0, 0)`. -/
def startInstant (q : ScheduledQuiz) : Int :=
  instant q.scheduleDay q.startTime.ms

/-- End instant of the `endTime`-only path (no `dueDate`), shared verbatim by
`teacherQuiz.js` (`isCurrentlyActive` lines 243-249, `getTimeStatus` lines
271-277), `getTeacherQuizzes` (1288-1297), `getQuizStats` (1810-1819),
`getSharedQuizzes` (1965-1973) and `TeacherQuizDraft.jsx` (269-278):
end-of-day on the schedule date, advanced by one day when the
`crossesMidnightLe` test fires. -/
def endInstantNoDue (schedDay : Int) (st et : TimeOfDay) : Int :=
  if crossesMidnightLe st et then instant (schedDay + 1) et.ms
  else instant schedDay et.ms

/-- `endDateTime` of the backend resolvers `getTeacherQuizzes`
(lines 1283-1302) and `getQuizStats` (lines 1805-1823): when `dueDate` is
present the end is forced to `dueDate` at `23:59:59.999` (the `endTime`
hours are NOT used); otherwise the `endTime` path.  (The code's trailing
`else` branch — the `new Date('2099-12-31')` sentinel — is unreachable
under the surrounding guard, which requires `quiz.endTime`.) -/
def backendEnd (q : ScheduledQuiz) : Int :=
  match q.dueDay with
  | some d => instant d endOfDayMs
  | none => endInstantNoDue q.scheduleDay q.startTime q.endTime

/-- The derived booleans of `getQuizStats` (lines 1825-1827):
`isUpcoming = now < startDateTime`,
`isCurrentlyActive = now >= startDateTime && now < endDateTime`,
`isExpired = now >= endDateTime`. -/
def quizStatsFlags (q : ScheduledQuiz) (now : Int) : Bool × Bool × Bool :=
  let s := startInstant q
  let e := backendEnd q
  (decide (now < s), decide (s ≤ now) && decide (now < e), decide (e ≤ now))

/-- Exactly one of three booleans is set. -/
def exactlyOne (a b c : Bool) : Bool :=
  (a && !b && !c) || (!a && b && !c) || (!a && !b && c)

/-- At least one of three booleans is set. -/
def atLeastOne (a b c : Bool) : Bool := a || b || c

/-- `teacherQuiz.js` `getTimeStatus` (lines 256-286), after its guard
(`isScheduled`, `scheduleDate`, `startTime`, `endTime` all present; it never
looks at `dueDate`): `'upcoming'` when `now < start`, `'active'` when
`now >= start && now < end`, else `'expired'`. -/
def getTimeStatus (schedDay : Int) (st et : TimeOfDay) (now : Int) : String :=
  let s := instant schedDay st.ms
  let e := endInstantNoDue schedDay st et
  if now < s then "upcoming"
  else if s ≤ now ∧ now < e then "active"
  else "expired"

/-- `teacherQuiz.js` `isCurrentlyActive` (lines 227-253), after the same
guard: `now >= startDateTime && now < endDateTime`. -/
def modelIsCurrentlyActive (schedDay : Int) (st et : TimeOfDay) (now : Int) : Bool :=
  let s := instant schedDay st.ms
  let e := endInstantNoDue schedDay st et
  decide (s ≤ now) && decide (now < e)

/-- Effective end instant of `getTeacherActivities`
(`teacherController.js` lines 916-930): always the `endTime` on the
schedule date, advanced by one day under the strict-minute variant
`crossesMidnightLt` (no `dueDate` handling in this path). -/
def activitiesEnd (schedDay : Int) (st et : TimeOfDay) : Int :=
  if crossesMidnightLt st et then instant (schedDay + 1) et.ms
  else instant schedDay et.ms

/-- `actualStatus` of `getTeacherActivities` (lines 932-939):
`'scheduled'` / `'active'` / `'closed'`. -/
def activitiesStatus (schedDay : Int) (st et : TimeOfDay) (now : Int) : String :=
  let s := instant schedDay st.ms
  let e := activitiesEnd schedDay st et
  if now < s then "scheduled"
  else if s ≤ now ∧ now < e then "active"
  else "closed"

/-- Scheduling fields as seen by `getSharedQuizzes` (guard at line 1946:
only `scheduleDate` and `startTime` are required; `endTime` is optional). -/
structure SharedQuizSched where
  scheduleDay : Int
  startTime : TimeOfDay
  endTime : Option TimeOfDay
  dueDay : Option Int
deriving DecidableEq, Repr

/-- `getSharedQuizzes` (lines 1943-1984): `timeStatus` starts `'active'`
with `isCurrentlyActive = true`; set to `'upcoming'`/false when
`now < startDateTime`; the optional end is `dueDate` at `23:59:59.999`
when present, else `endTime` (with the `crossesMidnightLe` day advance),
else undefined; finally set to `'expired'`/false when the end is defined
and `now > endDateTime` (strict). -/
def sharedStatus (q : SharedQuizSched) (now : Int) : String × Bool :=
  let s := instant q.scheduleDay q.startTime.ms
  let base : String × Bool := if now < s then ("upcoming", false) else ("active", true)
  let e? : Option Int :=
    match q.dueDay with
    | some d => some (instant d endOfDayMs)
    | none =>
      match q.endTime with
      | some et => some (endInstantNoDue q.scheduleDay q.startTime et)
      | none => none
  match e? with
  | some e => if e < now then ("expired", false) else base
  | none => base

/-- Scheduling fields as seen by the `TeacherQuizDraft.jsx` filter
(guard at line 250: `isScheduled`, `scheduleDate`, `startTime`; `endTime`
and `dueDate` optional). -/
structure DraftQuizSched where
  scheduleDay : Int
  startTime : TimeOfDay
  endTime : Option TimeOfDay
  dueDay : Option Int
deriving DecidableEq, Repr

/-- `endDateTime` of the `TeacherQuizDraft.jsx` filter (lines 257-284):
`dueDate` AND `endTime` → the `dueDate` day with the `endTime` hours;
`dueDate` only → `dueDate` at `23:59:59.999`; `endTime` only → `endTime`
on the schedule date with the `crossesMidnightLe` day advance; neither →
the far-future sentinel `new Date('2099-12-31')`. -/
def draftEnd (q : DraftQuizSched) : Int :=
  match q.dueDay, q.endTime with
  | some d, some et => instant d et.ms
  | some d, none => instant d endOfDayMs
  | none, some et => endInstantNoDue q.scheduleDay q.startTime et
  | none, none => sentinel2099
where
  /-- `new Date('2099-12-31')` in ms since the epoch (UTC midnight). -/
  sentinel2099 : Int := 4102358400000

/-- The derived booleans of the `TeacherQuizDraft.jsx` filter
(lines 286-288), identical in shape to `getQuizStats`. -/
def draftFlags (q : DraftQuizSched) (now : Int) : Bool × Bool × Bool :=
  let s := instant q.scheduleDay q.startTime.ms
  let e := draftEnd q
  (decide (now < s), decide (s ≤ now) && decide (now < e), decide (e ≤ now))

/-- JavaScript `Math.round((c / T) * 100)` for naturals `c`, `T` (`T > 0`):
round half away from zero, i.e. `⌊c·100/T + 1/2⌋ = (200·c + T) / (2·T)`
in natural division. -/
def jsRound100 (c T : Nat) : Nat := (200 * c + T) / (2 * T)

/-- The majority-completion firing condition of `submitQuizAnswers`
STEP 9 (`teacherController.js` line 2342), as a function of the number of
`QuizResult` rows for the quiz after this submission (`completedCount = c`)
and the full student population (`totalStudents = T`):
`completionPercentage >= 50 && completionPercentage -
Math.round(((completedCount - 1) / totalStudents) * 100) > 0`. -/
def majorityFires (c T : Nat) : Bool :=
  decide (50 ≤ jsRound100 c T) &&
    decide ((0 : Int) < (jsRound100 c T : Int) - (jsRound100 (c - 1) T : Int))

/-- A notification record, restricted to the fields the modelled code
reads (`_id`, `recipientId`, `recipientRole`, `type`, `quizId`, `score`,
`status`, `isRead`, `createdAt`).  `ntype` stands for the schema field
`type`. -/
structure Notification where
  nid : Nat
  recipientId : Nat
  recipientRole : String
  ntype : String
  quizId : Option Nat
  score : Option String
  status : String
  isRead : Bool
  createdAt : Int
deriving DecidableEq, Repr

/-- The deduplication key suffix `${notification.score || 'no-score'}`:
JS `||` falls through on the falsy values `null`/`undefined`/`""`. -/
def scoreKey (s : Option String) : String :=
  match s with
  | some str => if str = "" then "no-score" else str
  | none => "no-score"

/-- First branch test of `deduplicateNotifications` (line 2505):
`notification.type === 'quiz_assigned' && notification.quizId &&
notification.status !== 'graded'`. -/
def isAssignedUngraded (n : Notification) : Bool :=
  n.ntype == "quiz_assigned" && n.quizId.isSome && n.status != "graded"

/-- Second branch test (line 2518): `(type === 'quiz_graded' ||
(type === 'quiz_assigned' && status === 'graded')) && quizId`. -/
def isGradedLike (n : Notification) : Bool :=
  (n.ntype == "quiz_graded" || (n.ntype == "quiz_assigned" && n.status == "graded"))
    && n.quizId.isSome

/-- Loop of `deduplicateNotifications` (`teacherController.js` lines
2497-2537).  `seenA` are the quiz ids already seen for `quiz_assigned`
notifications, `seenG` the `(quizId, score)` keys already seen for
graded-like notifications.  The first occurrence per key is kept; later
ones are duplicates, and the ids of the *unread* duplicates are collected. -/
def dedupGo (seenA : List Nat) (seenG : List (Nat × String)) :
    List Notification → List Notification × List Nat
  | [] => ([], [])
  | n :: rest =>
    if isAssignedUngraded n then
      match n.quizId with
      | some qid =>
        if qid ∈ seenA then
          let p := dedupGo seenA seenG rest
          (p.1, if n.isRead then p.2 else n.nid :: p.2)
        else
          let p := dedupGo (qid :: seenA) seenG rest
          (n :: p.1, p.2)
      | none =>
        -- unreachable: `isAssignedUngraded` requires `quizId.isSome`
        let p := dedupGo seenA seenG rest
        (n :: p.1, p.2)
    else if isGradedLike n then
      match n.quizId with
      | some qid =>
        if (qid, scoreKey n.score) ∈ seenG then
          let p := dedupGo seenA seenG rest
          (p.1, if n.isRead then p.2 else n.nid :: p.2)
        else
          let p := dedupGo seenA ((qid, scoreKey n.score) :: seenG) rest
          (n :: p.1, p.2)
      | none =>
        let p := dedupGo seenA seenG rest
        (n :: p.1, p.2)
    else
      let p := dedupGo seenA seenG rest
      (n :: p.1, p.2)

/-- `deduplicateNotifications(notifications)` returning
`{ uniqueNotifications, duplicateIds }`. -/
def deduplicateNotifications (l : List Notification) : List Notification × List Nat :=
  dedupGo [] [] l

/-- A student record, restricted to the fields read by the modelled paths:
`_id`, `email`, `name`, `semester`, `year`, and the
`notificationSettings.emailNotifications` flag (`none` = settings absent,
defaulting to enabled). -/
structure StudentRec where
  sid : Nat
  email : Option String
  sname : Option String
  semester : Option String
  year : Option String
  emailNotifications : Option Bool
deriving DecidableEq, Repr

/-- A teacher record (fields read by STEP 9 of `submitQuizAnswers`). -/
structure TeacherRec where
  tid : Nat
  email : Option String
  tname : Option String
deriving DecidableEq, Repr

/-- The `yearStrings` mapping `{1: '1st year', 2: '2nd year', 3: '3rd year',
4: '4th year'}` of `createQuizNotification` (lines 2714-2719); other values
give `undefined`, so no year filter is applied. -/
def yearString (n : Nat) : Option String :=
  match n with
  | 1 => some "1st year"
  | 2 => some "2nd year"
  | 3 => some "3rd year"
  | 4 => some "4th year"
  | _ => none

/-- JS truthiness on an optional string: `""` is falsy, so a present empty
string behaves as an absent filter. -/
def truthyStr (o : Option String) : Option String :=
  match o with
  | some "" => none
  | x => x

/-- The quiz data passed to `createQuizNotification` (fields it reads for
filtering; the date/time fields are used only inside description strings,
which no claim observes, and are omitted). -/
structure QuizData where
  semester : Option String
  academicYear : Option Nat
deriving DecidableEq, Repr

/-- The student eligibility filter built by `createQuizNotification`
(lines 2707-2724): semester equality if a (truthy) semester is given, and
`year` equality if `academicYear` maps through `yearString`. -/
def studentMatchesFilter (qd : QuizData) (s : StudentRec) : Bool :=
  (match truthyStr qd.semester with
   | some sem => s.semester == some sem
   | none => true) &&
  (match qd.academicYear.bind yearString with
   | some y => s.year == some y
   | none => true)

/-- Side effects of the modelled handlers: each constructor is one call
into the email-delivery collaborator. -/
inductive Effect where
  /-- `sendQuizAssignmentEmail`/`sendEmailNotification` to one student
  (`createQuizNotification` lines 2798-2811). -/
  | emailAssignment (studentId : Nat)
  /-- The quiz-submission confirmation email to the submitting student
  (`submitQuizAnswers` STEP 8 email blocks). -/
  | emailSubmissionConfirmation (studentId : Nat)
  /-- The majority-completion email to the teacher (STEP 9). -/
  | emailMajorityCompletion (teacherId : Nat)
deriving DecidableEq, Repr

/-- Return value of `createQuizNotification`: `{success, count?, skipped?,
error?}`. -/
structure DispatchResult where
  success : Bool
  count : Nat := 0
  skipped : Bool := false
  error : Option String := none
deriving DecidableEq, Repr

/-- The `quiz_assigned` notification created for one eligible student
(lines 2774-2784).  Ids and `createdAt` are assigned by the store and not
read by any modelled path; they are fixed to `0`. -/
def assignedNotif (quizId : Nat) (s : StudentRec) : Notification :=
  { nid := 0, recipientId := s.sid, recipientRole := "student",
    ntype := "quiz_assigned", quizId := some quizId, score := none,
    status := "pending", isRead := false, createdAt := 0 }

/-- `createQuizNotification(quizId, quizData, teacherName)`
(`teacherController.js` lines 2689-2824) over an explicit store:
1. idempotency guard — if any `quiz_assigned` notification exists for this
   `quizId`, skip entirely and report the existing count;
2. otherwise filter the students, fail if none match;
3. otherwise insert one `quiz_assigned` notification per matching student
   and send an assignment email to each matching student whose
   `emailNotifications` preference (default true) is on and who has an
   email address. -/
def createQuizNotification (quizId : Nat) (qd : QuizData)
    (students : List StudentRec) (notifs : List Notification) :
    DispatchResult × List Notification × List Effect :=
  let existing := notifs.countP
    (fun n => n.quizId == some quizId && n.ntype == "quiz_assigned")
  if 0 < existing then
    ({ success := true, count := existing, skipped := true }, notifs, [])
  else
    let matched := students.filter (studentMatchesFilter qd)
    if matched.isEmpty then
      ({ success := false, error := some "No students found matching the criteria" },
        notifs, [])
    else
      let newNotifs := matched.map (assignedNotif quizId)
      let emails := matched.filterMap fun s =>
        if s.emailNotifications.getD true && s.email.isSome then
          some (Effect.emailAssignment s.sid)
        else none
      ({ success := true, count := newNotifs.length }, notifs ++ newNotifs, emails)

/-- The `notificationSettings` sub-document of a user record. -/
structure NotifSettings where
  inAppNotifications : Option Bool
  emailNotifications : Option Bool
deriving DecidableEq, Repr

/-- `user?.notificationSettings?.inAppNotifications ?? true` for a user
lookup result (`none` = user not found; `some none` = user without a
`notificationSettings` sub-document). -/
def inAppEnabled (user : Option (Option NotifSettings)) : Bool :=
  match user with
  | some (some s) => s.inAppNotifications.getD true
  | _ => true

/-- Mark every notification whose id is in `ids` as read
(`Notification.updateMany({_id: {$in: duplicateIds}},
{$set: {isRead: true}})`). -/
def markReadByIds (ids : List Nat) (store : List Notification) : List Notification :=
  store.map fun n => if n.nid ∈ ids then { n with isRead := true } else n

/-- Response of `getNotifications`. -/
structure NotifListResponse where
  success : Bool
  notifications : List Notification
  unreadCount : Nat
deriving DecidableEq, Repr

/-- `getNotifications` (`teacherController.js` lines 2540-2600) over an
explicit store.  When in-app notifications are disabled it returns an empty
list with `unreadCount := 0` before touching the notification collection.
Otherwise: query by recipient (and `isRead: false` when
`filter === 'unread'`), sort most-recent-first, limit 50, deduplicate, mark
the unread duplicates as read in the store, and count unread among the
unique list. -/
def getNotifications (user : Option (Option NotifSettings)) (userId : Nat)
    (filter : String) (store : List Notification) :
    NotifListResponse × List Notification :=
  if !inAppEnabled user then
    ({ success := true, notifications := [], unreadCount := 0 }, store)
  else
    let query := store.filter fun n =>
      n.recipientId == userId && (filter != "unread" || !n.isRead)
    let sorted := (query.mergeSort fun a b => b.createdAt ≤ a.createdAt).take 50
    let (uniq, dups) := deduplicateNotifications sorted
    ({ success := true, notifications := uniq,
       unreadCount := uniq.countP fun n => !n.isRead },
      markReadByIds dups store)

/-- `getUnreadCount` (`teacherController.js` lines 2827-2877) over an
explicit store: `0` immediately when in-app notifications are disabled;
otherwise fetch the unread notifications of the recipient, deduplicate,
mark the unread duplicates read, and report the size of the unique list. -/
def getUnreadCount (user : Option (Option NotifSettings)) (userId : Nat)
    (store : List Notification) : Nat × List Notification :=
  if !inAppEnabled user then
    (0, store)
  else
    let query := store.filter fun n => n.recipientId == userId && !n.isRead
    let (uniq, dups) := deduplicateNotifications query
    (uniq.length, markReadByIds dups store)

/-- A `QuizResult` row, restricted to the fields read by the modelled
paths (`answers` and `timeTaken` are stored but never read back by them). -/
structure QuizResultRec where
  userId : Nat
  quizId : Nat
  score : Nat
  correctAnswers : Nat
  totalQuestions : Nat
  submittedAt : Int
  abandoned : Bool
deriving DecidableEq, Repr

/-- A teacher quiz as read by `submitQuizAnswers`: each question is its
list of `isCorrect` flags (the only option field grading reads), plus
`maxAttempts`, `teacherId`, and the scheduling block.  `sched` is `some`
exactly when `isScheduled`, `scheduleDate`, `startTime` and `endTime` are
all present (the guard of the `teacherQuiz.js` instance methods; they
never read `dueDate`). -/
structure SQuiz where
  questions : List (List Bool)
  maxAttempts : Nat
  teacherId : Nat
  sched : Option ScheduledQuiz
deriving DecidableEq, Repr

/-- `quiz.isCurrentlyActive()` on a full quiz record: `false` when any
scheduling field is missing. -/
def quizIsCurrentlyActive (quiz : SQuiz) (now : Int) : Bool :=
  match quiz.sched with
  | some sc => modelIsCurrentlyActive sc.scheduleDay sc.startTime sc.endTime now
  | none => false

/-- `quiz.getTimeStatus()` on a full quiz record: `'unscheduled'` when any
scheduling field is missing. -/
def quizTimeStatus (quiz : SQuiz) (now : Int) : String :=
  match quiz.sched with
  | some sc => getTimeStatus sc.scheduleDay sc.startTime sc.endTime now
  | none => "unscheduled"

/-- STEP 6 per-question check: `const correctAnswerIndex =
question.options?.findIndex(opt => opt.isCorrect)`; the user answer
`answers[index]` is correct when it strictly equals that index (a missing
answer — `undefined` — never equals a number, and when no option is
flagged correct the comparand is `null`, which no number equals). -/
def answerIsCorrect (answers : List Nat) (i : Nat) (opts : List Bool) : Bool :=
  match opts.findIdx? (fun b => b), answers[i]? with
  | some c, some a => a == c
  | _, _ => false

/-- STEP 6 `correctAnswers` counter over the question list. -/
def gradeCount (questions : List (List Bool)) (answers : List Nat) : Nat :=
  questions.enum.countP fun p => answerIsCorrect answers p.1 p.2

/-- The STEP 8 in-app dedup probe: an existing `quiz_graded` notification
for this user and quiz created within the trailing 5-second window. -/
def quizGradedRecent (userId quizId : Nat) (now : Int)
    (notifs : List Notification) : Bool :=
  notifs.any fun n =>
    n.recipientId == userId && n.quizId == some quizId &&
      n.ntype == "quiz_graded" && decide (now - 5000 ≤ n.createdAt)

/-- The database state `submitQuizAnswers` reads and writes. -/
structure SubmitState where
  results : List QuizResultRec
  notifications : List Notification
deriving DecidableEq, Repr

/-- The JSON responses of `submitQuizAnswers` (success and error shapes,
restricted to the numeric/status payload fields). -/
inductive SubmitResponse where
  /-- STEP 1: duplicate click — the prior result is returned, nothing written. -/
  | duplicate (score correctAnswers totalQuestions : Nat)
  /-- STEP 3: HTTP 403 `attemptsUsed`/`maxAttempts` payload. -/
  | attemptsExhausted (attemptsUsed maxAttempts : Nat)
  /-- STEP 4: abandoned attempt recorded. -/
  | abandonedRecorded (attemptNumber maxAttempts : Nat)
  /-- STEP 5: HTTP 403 with the `timeStatus` that explains the rejection. -/
  | notActive (timeStatus : String)
  /-- STEP 10: graded submission. -/
  | submitted (score correctAnswers totalQuestions attemptNumber attemptsRemaining : Nat)
deriving DecidableEq, Repr

/-- The `quiz_majority_complete` notification of STEP 9. -/
def majorityNotif (teacherId quizId : Nat) (now : Int) : Notification :=
  { nid := 0, recipientId := teacherId, recipientRole := "teacher",
    ntype := "quiz_majority_complete", quizId := some quizId, score := none,
    status := "completed", isRead := false, createdAt := now }

/-- STEP 9 of `submitQuizAnswers` (lines 2333-2380): when the majority
condition holds AND the teacher lookup succeeded with an email address,
the majority email is sent and the `quiz_majority_complete` notification
created; otherwise nothing happens.  Returns (created notifications,
email effects). -/
def majorityOutcome (fires : Bool) (teacher : Option TeacherRec)
    (teacherId quizId : Nat) (now : Int) : List Notification × List Effect :=
  if fires then
    match teacher with
    | some t =>
      match t.email with
      | some _ => ([majorityNotif teacherId quizId now],
                   [.emailMajorityCompletion teacherId])
      | none => ([], [])
    | none => ([], [])
  else ([], [])

/-- `submitQuizAnswers` (`teacherController.js` lines 2026-2408) as a pure
state transformer.  `student` is the `Student.findById(userId)` lookup,
`teacher` the `Teacher.findById(quiz.teacherId)` lookup, `totalStudents`
the `Student.countDocuments({})` of STEP 9.  Steps, in source order:
1. return the prior result when a result of this (user, quiz) exists
   within the trailing 5-second window;
2-3. reject when the recorded attempts already reach `maxAttempts`;
4. record a zero-score abandoned attempt when the client flags
   abandonment;
5. reject with the resolver's `timeStatus` when the quiz is not currently
   active;
6-7. grade positionally and persist the result;
8. create the `quiz_graded` notification unless one exists within 5
   seconds, then run the submission-confirmation email block TWICE (the
   source contains two identical sequential copies, lines 2257-2296 and
   2299-2331);
9. when `majorityFires` holds for the new per-quiz result count over the
   whole student population and the teacher has an email address, send the
   majority email and create the majority notification. -/
def submitQuizAnswers (quiz : SQuiz) (quizId userId : Nat)
    (answers : List Nat) (abandonedQuiz : Bool)
    (student : Option StudentRec) (teacher : Option TeacherRec)
    (totalStudents : Nat) (now : Int) (st : SubmitState) :
    SubmitResponse × SubmitState × List Effect :=
  match st.results.find? (fun r =>
      r.userId == userId && r.quizId == quizId &&
        decide (now - 5000 ≤ r.submittedAt)) with
  | some r => (.duplicate r.score r.correctAnswers r.totalQuestions, st, [])
  | none =>
    let existingAttempts := st.results.countP fun r =>
      r.userId == userId && r.quizId == quizId
    if quiz.maxAttempts ≤ existingAttempts then
      (.attemptsExhausted existingAttempts quiz.maxAttempts, st, [])
    else if abandonedQuiz then
      let r : QuizResultRec :=
        { userId := userId, quizId := quizId, score := 0, correctAnswers := 0,
          totalQuestions := quiz.questions.length, submittedAt := now,
          abandoned := true }
      let n : Notification :=
        { nid := 0, recipientId := userId, recipientRole := "student",
          ntype := "quiz_abandoned", quizId := some quizId,
          score := some "0/100", status := "abandoned", isRead := false,
          createdAt := now }
      (.abandonedRecorded (existingAttempts + 1) quiz.maxAttempts,
        { results := st.results ++ [r],
          notifications := st.notifications ++ [n] }, [])
    else if !quizIsCurrentlyActive quiz now then
      (.notActive (quizTimeStatus quiz now), st, [])
    else
      let correctAnswers := gradeCount quiz.questions answers
      let score := jsRound100 correctAnswers quiz.questions.length
      let r : QuizResultRec :=
        { userId := userId, quizId := quizId, score := score,
          correctAnswers := correctAnswers,
          totalQuestions := quiz.questions.length, submittedAt := now,
          abandoned := false }
      let gradedNotifs : List Notification :=
        if quizGradedRecent userId quizId now st.notifications then []
        else
          [{ nid := 0, recipientId := userId, recipientRole := "student",
             ntype := "quiz_graded", quizId := some quizId,
             score := some (toString score ++ "/100"), status := "graded",
             isRead := false, createdAt := now }]
      let emailBlock : List Effect :=
        match student with
        | some s =>
          match s.email with
          | some _ => [.emailSubmissionConfirmation userId]
          | none => []
        | none => []
      let completedCount := (st.results.countP fun r2 => r2.quizId == quizId) + 1
      let maj := majorityOutcome (majorityFires completedCount totalStudents)
        teacher quiz.teacherId quizId now
      (.submitted score correctAnswers quiz.questions.length
          (existingAttempts + 1) (quiz.maxAttempts - (existingAttempts + 1)),
        { results := st.results ++ [r],
          notifications := st.notifications ++ gradedNotifs ++ maj.1 },
        emailBlock ++ emailBlock ++ maj.2)

/-! ## Helper lemmas -/

/-- When `startTime` is a well-formed wall-clock time, the `endTime`-only
end instant (with its midnight day-advance) lies strictly after the start
instant. -/
theorem start_lt_end_noDue (schedDay : Int) (st et : TimeOfDay) (hst : st.valid) :
    instant schedDay st.ms < endInstantNoDue schedDay st et := by
  obtain ⟨h1, h2⟩ := hst
  unfold endInstantNoDue crossesMidnightLe instant TimeOfDay.ms msPerDay
  split
  · omega
  · rename_i h
    rw [decide_eq_true_eq] at h
    push_neg at h
    omega

/-- The three status booleans of the backend resolvers always cover every
`now`. -/
theorem flags_atLeastOne (s e now : Int) :
    atLeastOne (decide (now < s)) (decide (s ≤ now) && decide (now < e))
      (decide (e ≤ now)) = true := by
  simp only [atLeastOne, Bool.or_eq_true, Bool.and_eq_true, decide_eq_true_eq]
  omega

/-- The three status booleans are mutually exclusive whenever the computed
start does not lie after the computed end. -/
theorem flags_exactlyOne (s e now : Int) (h : s ≤ e) :
    exactlyOne (decide (now < s)) (decide (s ≤ now) && decide (now < e))
      (decide (e ≤ now)) = true := by
  simp only [exactlyOne, Bool.or_eq_true, Bool.and_eq_true, Bool.not_eq_true',
    Bool.and_eq_false_iff, decide_eq_true_eq, decide_eq_false_iff_not]
  omega

/-- Running the deduplication loop on its own kept output (from the same
seen-key state) keeps everything and reports no duplicates. -/
theorem dedupGo_idem (l : List Notification) :
    ∀ (seenA : List Nat) (seenG : List (Nat × String)),
      dedupGo seenA seenG (dedupGo seenA seenG l).1 = ((dedupGo seenA seenG l).1, []) := by
  induction l with
  | nil => intro sA sG; rfl
  | cons n rest ih =>
    intro sA sG
    by_cases h1 : isAssignedUngraded n
    · rcases hq : n.quizId with _ | qid
      · simp [dedupGo, h1, hq, ih]
      · by_cases hm : qid ∈ sA
        · simp [dedupGo, h1, hq, hm, ih]
        · simp [dedupGo, h1, hq, hm, ih]
    · by_cases h2 : isGradedLike n
      · rcases hq : n.quizId with _ | qid
        · simp [dedupGo, h1, h2, hq, ih]
        · by_cases hm : (qid, scoreKey n.score) ∈ sG
          · simp [dedupGo, h1, h2, hq, hm, ih]
          · simp [dedupGo, h1, h2, hq, hm, ih]
      · simp [dedupGo, h1, h2, ih]

/-- The STEP 1 duplicate-click probe finds nothing when every prior result
of this (user, quiz) is older than the 5-second window. -/
theorem find_recent_none (userId quizId : Nat) (now : Int) (results : List QuizResultRec)
    (hrecent : ∀ r ∈ results, r.userId = userId → r.quizId = quizId →
      r.submittedAt < now - 5000) :
    results.find? (fun r => r.userId == userId && r.quizId == quizId &&
      decide (now - 5000 ≤ r.submittedAt)) = none := by
  rw [List.find?_eq_none]
  intro r hr
  have := hrecent r hr
  simp only [Bool.and_eq_true, beq_iff_eq, decide_eq_true_eq, not_and]
  intro h
  omega

/-- STEP 9 never emits a submission-confirmation email. -/
theorem majorityOutcome_email_count (fires : Bool) (teacher : Option TeacherRec)
    (teacherId quizId uid : Nat) (now : Int) :
    (majorityOutcome fires teacher teacherId quizId now).2.count
      (Effect.emailSubmissionConfirmation uid) = 0 := by
  unfold majorityOutcome
  split
  · cases teacher with
    | none => simp
    | some t => cases h : t.email <;> simp [h]
  · simp

/-- STEP 9 never creates a `quiz_graded` notification. -/
theorem majorityOutcome_graded_countP (fires : Bool) (teacher : Option TeacherRec)
    (teacherId quizId : Nat) (now : Int) :
    (majorityOutcome fires teacher teacherId quizId now).1.countP
      (fun n => n.ntype == "quiz_graded") = 0 := by
  unfold majorityOutcome
  split
  · cases teacher with
    | none => simp
    | some t => cases h : t.email <;> simp [h, majorityNotif]
  · simp

/-! ## The claims -/

/-- C1, counterexample.  In a population of 4 students the rounded
completion percentage first reaches the 50% threshold at the 2nd completed
submission (25% → 50%), yet the majority condition also fires at the 3rd:
a full run of `submitQuizAnswers` at the 3rd completion (two prior results
by other students, `totalStudents = 4`, teacher with an email address)
still ends with the majority-completion email.  The notification therefore
fires on a submission *after* the crossing, refuting "exactly once … and
on no submission before or after that crossing". -/
theorem c1_fires_after_crossing :
    (submitQuizAnswers ⟨[[true]], 99, 9, some ⟨0, ⟨9,0⟩, ⟨17,0⟩, none⟩⟩ 7 1 [0] false
        (some ⟨1, some "s", none, none, none, none⟩) (some ⟨9, some "t", none⟩) 4 36000000
        ⟨[⟨2, 7, 100, 1, 1, -1000000, false⟩, ⟨3, 7, 100, 1, 1, -1000000, false⟩], []⟩).2.2 =
      [.emailSubmissionConfirmation 1, .emailSubmissionConfirmation 1,
       .emailMajorityCompletion 9] ∧
    majorityFires 3 4 = true ∧ majorityFires 2 4 = true ∧
    jsRound100 2 4 = 50 ∧ jsRound100 1 4 = 25 := by decide

/-- C1, amended.  The majority notification fires on a submission exactly
when the rounded completion percentage is at least 50 AND strictly larger
than the rounded percentage at the previous count — so it does fire on the
submission that first crosses the threshold, but it can fire again on
later submissions (whenever the rounded percentage keeps growing), not
exactly once. -/
theorem c1_majority_condition (c T : Nat) (_hc : 0 < c) :
    (majorityFires c T = true ↔
      50 ≤ jsRound100 c T ∧ jsRound100 (c - 1) T < jsRound100 c T) ∧
    (jsRound100 (c - 1) T < 50 → 50 ≤ jsRound100 c T → majorityFires c T = true) := by
  unfold majorityFires
  simp only [Bool.and_eq_true, decide_eq_true_eq]
  omega

/-- C1, witness: the condition does fire at the crossing count 2 of 4. -/
theorem c1_majority_condition_witness : 0 < 2 ∧ majorityFires 2 4 = true :=
  ⟨by decide, (c1_majority_condition 2 4 (by decide)).2 (by decide) (by decide)⟩

/-- C2, counterexample.  A scheduled quiz with `dueDate` day 15 and
`endTime` 17:00: the backend resolvers force the end to 23:59:59.999 of
the due day (not the 17:00 composition the claim states), and both
`getQuizStats` and `getSharedQuizzes` still report the quiz active at
18:00 on the due day; only the frontend draft filter composes
`dueDate` + `endTime`. -/
theorem c2_backend_forces_end_of_day :
    backendEnd ⟨10, ⟨9,0⟩, ⟨17,0⟩, some 15⟩ = instant 15 endOfDayMs ∧
    backendEnd ⟨10, ⟨9,0⟩, ⟨17,0⟩, some 15⟩ ≠ instant 15 (TimeOfDay.ms ⟨17,0⟩) ∧
    (quizStatsFlags ⟨10, ⟨9,0⟩, ⟨17,0⟩, some 15⟩ (instant 15 64800000)).2.1 = true ∧
    sharedStatus ⟨10, ⟨9,0⟩, some ⟨17,0⟩, some 15⟩ (instant 15 64800000) = ("active", true) ∧
    draftEnd ⟨10, ⟨9,0⟩, some ⟨17,0⟩, some 15⟩ = instant 15 (TimeOfDay.ms ⟨17,0⟩) := by
  decide

/-- C2, amended.  When both `dueDate` and `endTime` are present the
claimed composition (due day + `endTime` hours) holds only in the
`TeacherQuizDraft.jsx` filter; the backend resolvers
(`getTeacherQuizzes`, `getQuizStats`, and the identical code in
`getSharedQuizzes`) force the end to the due day at 23:59:59.999,
ignoring `endTime`. -/
theorem c2_end_instant_by_path (schedDay dueDay : Int) (st et : TimeOfDay) :
    draftEnd ⟨schedDay, st, some et, some dueDay⟩ = instant dueDay et.ms ∧
    backendEnd ⟨schedDay, st, et, some dueDay⟩ = instant dueDay endOfDayMs := by
  constructor
  · simp [draftEnd]
  · simp [backendEnd]

/-- C3, counterexample.  A scheduled quiz whose `dueDate` (day 1) lies
before its `scheduleDate` (day 10): at a `now` between the two,
`getQuizStats` reports `isUpcoming` and `isExpired` simultaneously — the
three booleans are not mutually exclusive for every combination of field
values. -/
theorem c3_two_flags_at_once :
    quizStatsFlags ⟨10, ⟨9,0⟩, ⟨17,0⟩, some 1⟩ (instant 5 0) = (true, false, true) ∧
    exactlyOne true false true = false := by decide

/-- C3, amended.  At least one of `isUpcoming` / `isCurrentlyActive` /
`isExpired` always holds; all three are mutually exclusive (exactly one
holds) whenever the computed start does not lie after the computed end —
in particular always when `dueDate` is absent and `startTime` is a
well-formed time — but a `dueDate` ending before the start instant makes
`isUpcoming` and `isExpired` overlap. -/
theorem c3_flags_partition (q : ScheduledQuiz) (now : Int) :
    atLeastOne (quizStatsFlags q now).1 (quizStatsFlags q now).2.1
      (quizStatsFlags q now).2.2 = true ∧
    (startInstant q ≤ backendEnd q →
      exactlyOne (quizStatsFlags q now).1 (quizStatsFlags q now).2.1
        (quizStatsFlags q now).2.2 = true) ∧
    (q.dueDay = none → q.startTime.valid →
      exactlyOne (quizStatsFlags q now).1 (quizStatsFlags q now).2.1
        (quizStatsFlags q now).2.2 = true) := by
  refine ⟨?_, ?_, ?_⟩
  · exact flags_atLeastOne _ _ _
  · intro h
    exact flags_exactlyOne _ _ _ h
  · intro hd hv
    apply flags_exactlyOne
    rw [show backendEnd q = endInstantNoDue q.scheduleDay q.startTime q.endTime by
      simp [backendEnd, hd]]
    exact (start_lt_end_noDue q.scheduleDay q.startTime q.endTime hv).le

/-- C3, witness: on a quiz without `dueDate` exactly one flag is set. -/
theorem c3_flags_partition_witness :
    exactlyOne (quizStatsFlags ⟨0, ⟨9,0⟩, ⟨17,0⟩, none⟩ 0).1
      (quizStatsFlags ⟨0, ⟨9,0⟩, ⟨17,0⟩, none⟩ 0).2.1
      (quizStatsFlags ⟨0, ⟨9,0⟩, ⟨17,0⟩, none⟩ 0).2.2 = true :=
  (c3_flags_partition ⟨0, ⟨9,0⟩, ⟨17,0⟩, none⟩ 0).2.2 rfl (by decide)

/-- C4, counterexample.  The spec's own example quiz (09:00-17:00 on day 0,
no `dueDate`) at `now` exactly equal to the computed end instant:
`getSharedQuizzes` compares with strict `now > endDateTime`, so it still
reports `('active', isCurrentlyActive = true)` instead of expired —
the claim fails on this cited code path. -/
theorem c4_shared_active_at_exact_end :
    endInstantNoDue 0 ⟨9,0⟩ ⟨17,0⟩ = instant 0 61200000 ∧
    sharedStatus ⟨0, ⟨9,0⟩, some ⟨17,0⟩, none⟩ (instant 0 61200000) = ("active", true) := by
  decide

/-- C4, amended.  At `now` exactly equal to the computed end instant,
`getTimeStatus` reports expired and `getQuizStats` sets `isExpired` and
clears `isCurrentlyActive` (their boundary is `now >= end`), but
`getSharedQuizzes` marks expiry only strictly after the end and still
reports the quiz active at the boundary itself. -/
theorem c4_end_boundary (schedDay : Int) (st et : TimeOfDay) (hst : st.valid) (now : Int)
    (h : now = endInstantNoDue schedDay st et) :
    getTimeStatus schedDay st et now = "expired" ∧
    (quizStatsFlags ⟨schedDay, st, et, none⟩ now).2.2 = true ∧
    (quizStatsFlags ⟨schedDay, st, et, none⟩ now).2.1 = false ∧
    sharedStatus ⟨schedDay, st, some et, none⟩ now = ("active", true) := by
  have hlt := start_lt_end_noDue schedDay st et hst
  subst h
  refine ⟨?_, ?_, ?_, ?_⟩
  · simp only [getTimeStatus]
    rw [if_neg (by omega), if_neg (by omega)]
  · simp [quizStatsFlags, startInstant, backendEnd]
  · simp [quizStatsFlags, startInstant, backendEnd]
  · simp only [sharedStatus]
    rw [if_neg (by omega), if_neg (by omega)]

/-- C4, witness: the boundary behaviour at 17:00:00.000 of day 0. -/
theorem c4_end_boundary_witness :
    getTimeStatus 0 ⟨9,0⟩ ⟨17,0⟩ (instant 0 61200000) = "expired" ∧
    (quizStatsFlags ⟨0, ⟨9,0⟩, ⟨17,0⟩, none⟩ (instant 0 61200000)).2.2 = true ∧
    (quizStatsFlags ⟨0, ⟨9,0⟩, ⟨17,0⟩, none⟩ (instant 0 61200000)).2.1 = false ∧
    sharedStatus ⟨0, ⟨9,0⟩, some ⟨17,0⟩, none⟩ (instant 0 61200000) = ("active", true) :=
  c4_end_boundary 0 ⟨9,0⟩ ⟨17,0⟩ (by decide) (instant 0 61200000) (by decide)

/-- C5, counterexample.  With `startTime = endTime = "09:00"` (end
time-of-day at-or-before start time-of-day), `getTeacherActivities` — one
of the claim's cited code paths, whose midnight test is strict on the
minutes — does NOT advance the end date: its end stays at 09:00 of the
schedule day and the quiz is reported closed at that very instant, while
`isCurrentlyActive` in `teacherQuiz.js` does advance the day and reports
the quiz active. -/
theorem c5_equal_times_not_advanced :
    activitiesEnd 0 ⟨9,0⟩ ⟨9,0⟩ = instant 0 (TimeOfDay.ms ⟨9,0⟩) ∧
    activitiesEnd 0 ⟨9,0⟩ ⟨9,0⟩ ≠ instant 1 (TimeOfDay.ms ⟨9,0⟩) ∧
    activitiesStatus 0 ⟨9,0⟩ ⟨9,0⟩ (instant 0 (TimeOfDay.ms ⟨9,0⟩)) = "closed" ∧
    endInstantNoDue 0 ⟨9,0⟩ ⟨9,0⟩ = instant 1 (TimeOfDay.ms ⟨9,0⟩) ∧
    modelIsCurrentlyActive 0 ⟨9,0⟩ ⟨9,0⟩ (instant 0 (TimeOfDay.ms ⟨9,0⟩)) = true := by
  decide

/-- C5, amended.  The one-day advance under "end at-or-before start"
(`endHour < startHour`, or equal hours with `endMinute <= startMinute`)
holds in `teacherQuiz.js` (`isCurrentlyActive` / `getTimeStatus`) and in
the `TeacherQuizDraft.jsx` filter; `getTeacherActivities` advances only
under the strictly-before variant (equal start and end times are not
advanced there).  The specific midnight-spanning instance 22:00 → 02:00 on
day `schedDay` ends on day `schedDay + 1` and is active at 01:00 of that
next day in every path. -/
theorem c5_midnight_advance (schedDay : Int) (st et : TimeOfDay) :
    (crossesMidnightLe st et = true →
      endInstantNoDue schedDay st et = instant (schedDay + 1) et.ms ∧
      draftEnd ⟨schedDay, st, some et, none⟩ = instant (schedDay + 1) et.ms) ∧
    (crossesMidnightLt st et = true →
      activitiesEnd schedDay st et = instant (schedDay + 1) et.ms) ∧
    (crossesMidnightLt st et = false →
      activitiesEnd schedDay st et = instant schedDay et.ms) ∧
    (endInstantNoDue schedDay ⟨22, 0⟩ ⟨2, 0⟩ = instant (schedDay + 1) (TimeOfDay.ms ⟨2, 0⟩) ∧
      modelIsCurrentlyActive schedDay ⟨22, 0⟩ ⟨2, 0⟩ (instant (schedDay + 1) 3600000) = true ∧
      getTimeStatus schedDay ⟨22, 0⟩ ⟨2, 0⟩ (instant (schedDay + 1) 3600000) = "active" ∧
      activitiesStatus schedDay ⟨22, 0⟩ ⟨2, 0⟩ (instant (schedDay + 1) 3600000) = "active") := by
  have he : endInstantNoDue schedDay ⟨22, 0⟩ ⟨2, 0⟩ =
      instant (schedDay + 1) (TimeOfDay.ms ⟨2, 0⟩) := by
    simp [endInstantNoDue, crossesMidnightLe]
  have hae : activitiesEnd schedDay ⟨22, 0⟩ ⟨2, 0⟩ =
      instant (schedDay + 1) (TimeOfDay.ms ⟨2, 0⟩) := by
    simp [activitiesEnd, crossesMidnightLt]
  refine ⟨?_, ?_, ?_, he, ?_, ?_, ?_⟩
  · intro h
    constructor
    · simp [endInstantNoDue, h]
    · simp [draftEnd, endInstantNoDue, h]
  · intro h
    simp [activitiesEnd, h]
  · intro h
    simp [activitiesEnd, h]
  · simp only [modelIsCurrentlyActive, he, Bool.and_eq_true, decide_eq_true_eq]
    simp only [instant, TimeOfDay.ms, msPerDay]
    push_cast
    omega
  · simp only [getTimeStatus, he]
    rw [if_neg (by simp only [instant, TimeOfDay.ms, msPerDay]; push_cast; omega),
      if_pos (by simp only [instant, TimeOfDay.ms, msPerDay]; push_cast; omega)]
  · simp only [activitiesStatus, hae]
    rw [if_neg (by simp only [instant, TimeOfDay.ms, msPerDay]; push_cast; omega),
      if_pos (by simp only [instant, TimeOfDay.ms, msPerDay]; push_cast; omega)]

/-- C5, witness: the 22:00 → 02:00 quiz does get its end advanced to the
next day by the at-or-before rule. -/
theorem c5_midnight_advance_witness :
    crossesMidnightLe ⟨22,0⟩ ⟨2,0⟩ = true ∧
    endInstantNoDue 0 ⟨22,0⟩ ⟨2,0⟩ = instant 1 (TimeOfDay.ms ⟨2,0⟩) :=
  ⟨by decide, ((c5_midnight_advance 0 ⟨22,0⟩ ⟨2,0⟩).1 (by decide)).1⟩

/-- C6, confirmed.  The quiz-assignment dispatch is idempotent: (a) when
any `quiz_assigned` notification already exists for the quiz it creates
nothing, sends no email, and returns success with `skipped := true` and
the existing count; (b) after a first call that actually created
notifications (`success` and not `skipped`), an immediate second call
leaves the store unchanged, sends nothing, and reports `skipped := true`
with the first call's count. -/
theorem c6_dispatch_idempotent (quizId : Nat) (qd : QuizData)
    (students : List StudentRec) (notifs : List Notification) :
    (0 < notifs.countP (fun n => n.quizId == some quizId && n.ntype == "quiz_assigned") →
      createQuizNotification quizId qd students notifs =
        ({ success := true,
           count := notifs.countP
             (fun n => n.quizId == some quizId && n.ntype == "quiz_assigned"),
           skipped := true }, notifs, [])) ∧
    (∀ r1 n1 e1, createQuizNotification quizId qd students notifs = (r1, n1, e1) →
      r1.skipped = false → r1.success = true →
      createQuizNotification quizId qd students n1 =
        ({ success := true, count := r1.count, skipped := true }, n1, [])) := by
  constructor
  · intro h
    unfold createQuizNotification
    rw [if_pos h]
  · intro r1 n1 e1 heq hsk hsucc
    unfold createQuizNotification at heq ⊢
    by_cases h0 : 0 < notifs.countP
        (fun n => n.quizId == some quizId && n.ntype == "quiz_assigned")
    · rw [if_pos h0] at heq
      cases heq
      simp at hsk
    · rw [if_neg h0] at heq
      by_cases hm : (students.filter (studentMatchesFilter qd)).isEmpty
      · rw [if_pos hm] at heq
        cases heq
        simp at hsucc
      · rw [if_neg hm] at heq
        cases heq
        have hcount : (notifs ++
            (students.filter (studentMatchesFilter qd)).map (assignedNotif quizId)).countP
              (fun n => n.quizId == some quizId && n.ntype == "quiz_assigned") =
            (students.filter (studentMatchesFilter qd)).length := by
          rw [List.countP_append]
          have h1 : notifs.countP
              (fun n => n.quizId == some quizId && n.ntype == "quiz_assigned") = 0 := by
            omega
          rw [h1, List.countP_map]
          simp [Function.comp, assignedNotif]
        have hlen : (students.filter (studentMatchesFilter qd)).length ≠ 0 := by
          intro hlen0
          exact hm (by simp [List.isEmpty_iff, List.length_eq_zero] at hlen0 ⊢; exact hlen0)
        rw [if_pos (by rw [hcount]; omega)]
        simp [hcount]

/-- C6, witness: one student, empty store — the second call skips with the
first call's count of 1 and changes nothing. -/
theorem c6_dispatch_idempotent_witness :
    createQuizNotification 5 ⟨none, none⟩ [⟨1, some "a", none, none, none, none⟩]
        [assignedNotif 5 ⟨1, some "a", none, none, none, none⟩] =
      ({ success := true, count := 1, skipped := true },
        [assignedNotif 5 ⟨1, some "a", none, none, none, none⟩], []) := by
  have h := (c6_dispatch_idempotent 5 ⟨none, none⟩ [⟨1, some "a", none, none, none, none⟩] []).2
      { success := true, count := 1 }
      [assignedNotif 5 ⟨1, some "a", none, none, none, none⟩]
      [Effect.emailAssignment 1] (by decide) rfl rfl
  simpa using h

/-- C7, confirmed.  For `maxAttempts = 2` and a (user, quiz) pair with two
recorded results, none of them inside the 5-second duplicate window, a
third submission is rejected with the attempts-exhausted error carrying
`attemptsUsed = 2` and `maxAttempts = 2`, the store is unchanged (no new
`QuizResult` row, no notification) and no email is sent. -/
theorem c7_attempts_exhausted (quiz : SQuiz) (quizId userId : Nat)
    (answers : List Nat) (abandonedQuiz : Bool)
    (student : Option StudentRec) (teacher : Option TeacherRec)
    (totalStudents : Nat) (now : Int) (st : SubmitState)
    (hmax : quiz.maxAttempts = 2)
    (hcount : st.results.countP (fun r => r.userId == userId && r.quizId == quizId) = 2)
    (hrecent : ∀ r ∈ st.results, r.userId = userId → r.quizId = quizId →
      r.submittedAt < now - 5000) :
    submitQuizAnswers quiz quizId userId answers abandonedQuiz student teacher
        totalStudents now st =
      (.attemptsExhausted 2 2, st, []) := by
  unfold submitQuizAnswers
  rw [find_recent_none userId quizId now st.results hrecent]
  simp only [hcount, hmax]
  rw [if_pos (by omega)]

/-- C7, witness: a concrete third submission against two old results. -/
theorem c7_attempts_exhausted_witness :
    submitQuizAnswers ⟨[[true]], 2, 9, some ⟨0, ⟨9,0⟩, ⟨17,0⟩, none⟩⟩ 7 1 [0] false
        none none 0 36000000
        ⟨[⟨1, 7, 100, 1, 1, -1000000, false⟩, ⟨1, 7, 90, 1, 1, -2000000, false⟩], []⟩ =
      (.attemptsExhausted 2 2,
        ⟨[⟨1, 7, 100, 1, 1, -1000000, false⟩, ⟨1, 7, 90, 1, 1, -2000000, false⟩], []⟩, []) :=
  c7_attempts_exhausted _ 7 1 [0] false none none 0 36000000 _ rfl (by decide) (by decide)

/-- C8, confirmed.  `deduplicateNotifications` is idempotent: applied to
its own `uniqueNotifications` output it returns the same unique list and
an empty `duplicateIds` list. -/
theorem c8_dedup_idempotent (l : List Notification) :
    deduplicateNotifications (deduplicateNotifications l).1 =
      ((deduplicateNotifications l).1, []) :=
  dedupGo_idem l [] []

/-- C9, confirmed.  On every successful non-abandoned submission (no
recent duplicate, attempts remaining, quiz currently active) by a student
whose record has an email address, the submission-confirmation email
effect occurs exactly twice — the source contains two identical sequential
send blocks — while at most one `quiz_graded` notification is added to the
store (none when one already exists within the 5-second window). -/
theorem c9_submission_email_sent_twice (quiz : SQuiz) (quizId userId : Nat)
    (answers : List Nat) (s : StudentRec) (e : String)
    (teacher : Option TeacherRec) (totalStudents : Nat) (now : Int) (st : SubmitState)
    (hrecent : ∀ r ∈ st.results, r.userId = userId → r.quizId = quizId →
      r.submittedAt < now - 5000)
    (hatt : st.results.countP (fun r => r.userId == userId && r.quizId == quizId) <
      quiz.maxAttempts)
    (hactive : quizIsCurrentlyActive quiz now = true)
    (hemail : s.email = some e) :
    (submitQuizAnswers quiz quizId userId answers false (some s) teacher
        totalStudents now st).2.2.count (Effect.emailSubmissionConfirmation userId) = 2 ∧
    (submitQuizAnswers quiz quizId userId answers false (some s) teacher
        totalStudents now st).2.1.notifications.countP (fun n => n.ntype == "quiz_graded") ≤
      st.notifications.countP (fun n => n.ntype == "quiz_graded") + 1 := by
  unfold submitQuizAnswers
  rw [find_recent_none userId quizId now st.results hrecent]
  simp only [hemail, hactive]
  rw [if_neg (by omega), if_neg (by simp)]
  simp only [Bool.not_true, Bool.false_eq_true, if_false]
  constructor
  · simp only [List.count_append, majorityOutcome_email_count]
    simp [List.count_cons]
  · simp only [List.countP_append, majorityOutcome_graded_countP]
    split <;> simp [List.countP_cons]

/-- C9, witness: a fresh successful submission sends the confirmation
email twice. -/
theorem c9_submission_email_witness :
    (submitQuizAnswers ⟨[[true]], 2, 9, some ⟨0, ⟨9,0⟩, ⟨17,0⟩, none⟩⟩ 7 1 [0] false
        (some ⟨1, some "s", none, none, none, none⟩) none 0 36000000 ⟨[], []⟩).2.2.count
      (Effect.emailSubmissionConfirmation 1) = 2 :=
  (c9_submission_email_sent_twice _ 7 1 [0] ⟨1, some "s", none, none, none, none⟩ "s"
    none 0 36000000 ⟨[], []⟩ (by decide) (by decide) (by decide) rfl).1

/-- C10, confirmed.  When the user's `inAppNotifications` setting resolves
to false, `getNotifications` answers with an empty list and
`unreadCount = 0`, `getUnreadCount` answers `0`, and both return before
the deduplication read-side effect, leaving every stored notification
(unread duplicates included) unchanged. -/
theorem c10_inapp_disabled_frame (user : Option (Option NotifSettings)) (userId : Nat)
    (filter : String) (store : List Notification)
    (h : inAppEnabled user = false) :
    getNotifications user userId filter store =
      ({ success := true, notifications := [], unreadCount := 0 }, store) ∧
    getUnreadCount user userId store = (0, store) := by
  unfold getNotifications getUnreadCount
  simp [h]

/-- C10, witness: a store holding two unread duplicate `quiz_assigned`
notifications is untouched when in-app notifications are disabled. -/
theorem c10_inapp_disabled_witness :
    getNotifications (some (some ⟨some false, none⟩)) 1 "all"
        [⟨20, 1, "student", "quiz_assigned", some 7, none, "pending", false, 50⟩,
         ⟨21, 1, "student", "quiz_assigned", some 7, none, "pending", false, 40⟩] =
      ({ success := true, notifications := [], unreadCount := 0 },
        [⟨20, 1, "student", "quiz_assigned", some 7, none, "pending", false, 50⟩,
         ⟨21, 1, "student", "quiz_assigned", some 7, none, "pending", false, 40⟩]) ∧
    getUnreadCount (some (some ⟨some false, none⟩)) 1
        [⟨20, 1, "student", "quiz_assigned", some 7, none, "pending", false, 50⟩,
         ⟨21, 1, "student", "quiz_assigned", some 7, none, "pending", false, 40⟩] =
      (0, [⟨20, 1, "student", "quiz_assigned", some 7, none, "pending", false, 50⟩,
           ⟨21, 1, "student", "quiz_assigned", some 7, none, "pending", false, 40⟩]) :=
  c10_inapp_disabled_frame _ 1 "all" _ (by decide)
